import Mathlib

set_option autoImplicit false

/-!
# Verification of the drone parcel-cabinet register protocol

A shallow embedding, in Lean, of the register-protocol engine of the
drone parcel-cabinet controller (Python source): the Modbus client
retry primitives (`modbus_client.py`), the polling wait loops
(`modbus_client.py`, `base_controller.py`), the storage-operation
state machine (`drone_storage_controller.py`, `door_controller.py`),
the per-cabinet connection bookkeeping (`services/machine_manager.py`),
and the register name map (`config.py`).

The PLC and the TCP transport are modelled as oracles: functions giving
the outcome of each successive transport operation.  Wall-clock time is
modelled as a natural number that advances by the duration of each read
and by the sleep interval of each polling iteration.

One caveat that matters below: the modules `drone_storage_controller.py`,
`user_send_controller.py` and `user_pickup_controller.py` reference the
free name `modbus_client` without importing it (their sibling modules
`base_controller.py` and `door_controller.py` do import it).  In the
literal source every such reference raises `NameError`, which the
surrounding `except` blocks turn into a failure return.  The embedding
makes this explicit: the controller functions take a flag `imp : Bool`
("the name `modbus_client` resolves in this module"); the literal
module is `imp = false`, the evidently intended module is `imp = true`.
-/

namespace DroneSpec

/-! ## Register map and operation codes (`config.py`) -/

/-- `REGISTER_MAP` of `config.py`: symbolic register names to numeric
holding-register addresses. -/
def REGISTER_MAP : List (String × Nat) :=
  [("DOOR_CONTROL", 0xBB8),
   ("LANDING_PAD_STATUS", 0xBB9),
   ("DRONE_PACKAGE_OP", 0xBBA),
   ("DRONE_SERVO", 0xBBB),
   ("DRONE_STORE_POS", 0xBBC),
   ("DRONE_PICKUP_POS", 0xBBD),
   ("STORAGE_STATUS", 0xBBE),
   ("PICKUP_STORAGE_STATUS", 0xBBF),
   ("SERVO_STATUS", 0xBC0),
   ("PICKUP_CODE_FRONT", 0xBC1),
   ("PICKUP_CODE_REAR", 0xBC2),
   ("PICKUP_POSITION", 0xBC3),
   ("USER_PICKUP_OP", 0xBC4),
   ("USER_RECYCLE_OP", 0xBC5),
   ("USER_CONFIRM_RECYCLE", 0xBC6),
   ("SEND_EMPTY_BOX_POS", 0xBC7),
   ("USER_SEND_OP", 0xBC8),
   ("SEND_BOX_POS", 0xBCA),
   ("SEND_BOX_WEIGHT", 0xBCB),
   ("SYSTEM_CONTROL", 0xBCC),
   ("SYSTEM_STATUS", 0xBCD),
   ("SYSTEM_ALARM", 0xBCE),
   ("FAULT_CLEAR", 0xBCF),
   ("SEND_CODE_FRONT", 0xBD0),
   ("SEND_CODE_REAR", 0xBD1),
   ("SEND_STORAGE_STATUS", 0xBD2),
   ("WEATHER_HUMIDITY", 0x8FC),
   ("WEATHER_TEMPERATURE", 0x8FE),
   ("WEATHER_WIND_FORCE", 0x900),
   ("WEATHER_RAINFALL", 0x902),
   ("WEATHER_WIND_SPEED", 0x904),
   ("WEATHER_WIND_DIRECTION", 0x906),
   ("WEATHER_PRESSURE", 0x908),
   ("ALARM_START", 0xBFE)]

/-- Python dict lookup `REGISTER_MAP[name]` (keys are unique). -/
def regAddr (name : String) : Option Nat :=
  REGISTER_MAP.lookup name

/-- `OPERATION_CODES` of `config.py` (door registers). -/
def DOOR_OPEN : Nat := 10
def DOOR_CLOSE : Nat := 20
def DOOR_OPEN_COMPLETE : Nat := 11
def DOOR_CLOSE_COMPLETE : Nat := 21

/-- `OPERATION_CODES` of `config.py` (landing-pad register). -/
def DRONE_PRESENT : Nat := 10
def DRONE_ABSENT : Nat := 20
def DRONE_PRESENT_CONFIRM : Nat := 11
def DRONE_ABSENT_CONFIRM : Nat := 21

/-- `OPERATION_CODES` of `config.py` (package-operation register). -/
def STORE_PACKAGE : Nat := 110
def STORE_COMPLETE : Nat := 111
def PICKUP_IN_PROGRESS : Nat := 120
def PICKUP_COMPLETE : Nat := 121
def NO_PICKUP_COMPLETE : Nat := 122

/-- `OPERATION_CODES` of `config.py` (servo register). -/
def SERVO_OPEN : Nat := 10
def SERVO_CLOSE : Nat := 20
def SERVO_OPEN_CONFIRM : Nat := 11
def SERVO_CLOSE_CONFIRM : Nat := 21
def SERVO_CAN_OPEN : Nat := 1
def SERVO_CAN_CLOSE : Nat := 2

/-- `OPERATION_CODES` of `config.py` (storage-status register). -/
def STORAGE_FULL : Nat := 10
def STORAGE_AVAILABLE : Nat := 20

/-- `POSITION_CODES` of `config.py` (only positions 1 to 3 appear in
`get_storage_position`). -/
def POSITION_1 : Nat := 101
def POSITION_2 : Nat := 102
def POSITION_3 : Nat := 103

/-! ## Transport retry primitives (`modbus_client.py`)

`ModbusClient.read_holding_register` runs `for attempt in range(self.retry_count)`
over the raw transport; a successful attempt returns its value at once, a
failed attempt (an error result or a `ModbusException`, both of which only
log and continue) moves to the next attempt; after the loop the method
returns `None`.  The raw transport is the oracle
`attempts : Nat → Option Nat`: the outcome of the k-th attempt.  The
embedding also returns how many transport attempts were performed. -/

/-- The retry loop of `read_holding_register`, started at attempt index
`k` with `n` attempts remaining; returns the result and the index after
the last attempt performed (so the number of attempts performed overall). -/
def readAttemptLoop (attempts : Nat → Option Nat) : Nat → Nat → Option Nat × Nat
  | 0, k => (none, k)
  | n + 1, k =>
    match attempts k with
    | some v => (some v, k + 1)
    | none => readAttemptLoop attempts n (k + 1)

/-- `ModbusClient.read_holding_register`: if the client is not connected it
returns `None` at once (no transport attempt); otherwise it performs the
bounded retry loop.  Result: the value read (or `none`) and the number of
transport attempts performed. -/
def read_holding_register (connected : Bool) (retry_count : Nat)
    (attempts : Nat → Option Nat) : Option Nat × Nat :=
  if connected then readAttemptLoop attempts retry_count 0 else (none, 0)

/-- The retry loop of `ModbusClient.write_holding_register`: each attempt
is recorded as the pair (address, value) it put on the wire; `writeOk k`
says whether the k-th attempt succeeded. -/
def writeAttemptLoop (writeOk : Nat → Bool) (addr value : Nat) :
    Nat → Nat → Bool × List (Nat × Nat)
  | 0, _ => (false, [])
  | n + 1, k =>
    if writeOk k then (true, [(addr, value)])
    else
      let r := writeAttemptLoop writeOk addr value n (k + 1)
      (r.1, (addr, value) :: r.2)

/-- `ModbusClient.write_holding_register`: not connected returns `False`
with no transport attempt; otherwise the bounded retry loop.  Result:
success flag and the list of write attempts that reached the transport. -/
def write_holding_register (connected : Bool) (retry_count : Nat)
    (writeOk : Nat → Bool) (addr value : Nat) : Bool × List (Nat × Nat) :=
  if connected then writeAttemptLoop writeOk addr value retry_count 0 else (false, [])

/-- `ModbusClient.read_register_by_name`: an unknown register name returns
`None` before the transport is touched; a known name reads its address. -/
def read_register_by_name (connected : Bool) (retry_count : Nat)
    (attempts : Nat → Option Nat) (name : String) : Option Nat × Nat :=
  match regAddr name with
  | none => (none, 0)
  | some _ => read_holding_register connected retry_count attempts

/-- `ModbusClient.write_register_by_name`: an unknown register name returns
`False` before the transport is touched; a known name writes its address. -/
def write_register_by_name (connected : Bool) (retry_count : Nat)
    (writeOk : Nat → Bool) (name : String) (value : Nat) : Bool × List (Nat × Nat) :=
  match regAddr name with
  | none => (false, [])
  | some a => write_holding_register connected retry_count writeOk a value

/-! ## The polling wait primitive
(`BaseController.wait_for_status_change`, `ModbusClient.wait_for_register_value`)

Both loops have the shape

    start = now
    while now - start < timeout:
        v = <one poll read>
        if v matches: return v
        sleep(interval)
    return timeout-failure

The k-th poll read is the oracle `poll k : Option Nat` (`none` = the read
failed: in `wait_for_status_change` the poll is
`read_register_with_retry(name, max_retries=1)`, in
`wait_for_register_value` it is `read_register_by_name(name)`; either way
one poll either yields a value or fails).  `dur k` is the wall-clock time
the k-th poll read takes; the sleep adds `interval`.  Time is a `Nat`;
with the source's fixed 0.5 s sleep one unit is half a second (`interval = 1`,
`timeout` in half-seconds).  `hI : 0 < interval` reflects that the source
always sleeps a positive interval; it makes the loop terminating. -/

/-- Outcome of one wait loop: the matched value (`none` = timeout), the
number of poll reads performed, and the wall-clock time at return. -/
structure WaitOutcome where
  value : Option Nat
  polls : Nat
  finalTime : Nat
deriving DecidableEq

/-- The polling loop common to both wait primitives, at elapsed time `t`
having already performed `k` polls.  A poll whose read failed (`none`) or
whose value is not in `expected` is "no match yet": the loop sleeps and
polls again.  The loop gives up only when the elapsed time reaches
`timeout`. -/
def waitLoop (expected : List Nat) (timeout interval : Nat) (hI : 0 < interval)
    (poll : Nat → Option Nat) (dur : Nat → Nat) (t k : Nat) : WaitOutcome :=
  if t < timeout then
    match poll k with
    | some v =>
      if v ∈ expected then ⟨some v, k + 1, t + dur k⟩
      else waitLoop expected timeout interval hI poll dur (t + dur k + interval) (k + 1)
    | none => waitLoop expected timeout interval hI poll dur (t + dur k + interval) (k + 1)
  else ⟨none, k, t⟩
termination_by timeout - t
decreasing_by
  all_goals omega

/-- `BaseController.wait_for_status_change`: polls until the read value is
not `None` and lies in `expected_values`; returns the matched value or
`None` on timeout. -/
def wait_for_status_change (expected_values : List Nat) (timeout interval : Nat)
    (hI : 0 < interval) (poll : Nat → Option Nat) (dur : Nat → Nat) : WaitOutcome :=
  waitLoop expected_values timeout interval hI poll dur 0 0

/-- `ModbusClient.wait_for_register_value`: polls until the read value
equals the single `expected_value` (a failed read compares unequal and is
"no match yet"); returns `True`/`False`.  The poll count and final time
are carried along for the resource-bound statements. -/
def wait_for_register_value (expected_value : Nat) (timeout interval : Nat)
    (hI : 0 < interval) (poll : Nat → Option Nat) (dur : Nat → Nat) :
    Bool × Nat × Nat :=
  let r := waitLoop [expected_value] timeout interval hI poll dur 0 0
  (r.value.isSome, r.polls, r.finalTime)

/-! ## Cabinet session bookkeeping (`services/machine_manager.py`)

`MachineConnection` keeps, per cabinet, the counters that
`get_client` updates and `is_healthy` classifies. -/

/-- The health-relevant fields of `MachineConnection`. -/
structure MachineConnection where
  connection_count : Nat
  error_count : Nat
  last_error : Option String
deriving DecidableEq

/-- A fresh `MachineConnection.__init__` state. -/
def MachineConnection.initial : MachineConnection :=
  ⟨0, 0, none⟩

/-- The counter update performed by `MachineConnection.get_client`:
`outcome = none` is the success path (`self.client.connect()` returned
true: `connection_count += 1; error_count = 0`); `outcome = some e` is a
failure (connect returned false or raised: `error_count += 1;
last_error = e`). -/
def get_client_update (c : MachineConnection) (outcome : Option String) :
    MachineConnection :=
  match outcome with
  | none => { c with connection_count := c.connection_count + 1, error_count := 0 }
  | some e => { c with error_count := c.error_count + 1, last_error := some e }

/-- `MachineConnection.is_healthy`: with at least one successful
connection, healthy iff `error_count / (connection_count + error_count) < 0.5`
(rational arithmetic, as Python's true division); with none, healthy iff
`error_count < 5`. -/
def is_healthy (c : MachineConnection) : Bool :=
  if c.connection_count > 0 then
    decide ((c.error_count : ℚ) / ((c.connection_count : ℚ) + (c.error_count : ℚ)) < 1/2)
  else
    decide (c.error_count < 5)

/-! ## Lock discipline of concurrent operations (`services/machine_manager.py`,
`web_api.py`)

An operation run against one cabinet does, in the source:

1. `get_machine_connection` → `MachineManager.get_connection` (briefly under
   the manager map lock) → `MachineConnection.get_client`, whose body runs
   under the per-cabinet `self._lock` — one acquire/release of the
   per-cabinet lock;
2. then the endpoint performs the register reads/writes of the handshake on
   the returned client, holding no per-cabinet lock.

The trace model: a step is a lock acquire, a lock release, or a register
access, tagged by which of two runs (`Bool`) performed it.  A trace is a
lock-valid interleaving when the per-cabinet lock is never acquired while
held and only its holder releases it.  The manager map lock only guards
map mutation and is not modelled (it is released before `get_client` runs). -/

/-- One step of an operation run: per-cabinet lock acquire/release, or a
register access at an address. -/
inductive OpStep where
  | acqLock : OpStep
  | relLock : OpStep
  | access : Nat → OpStep
deriving DecidableEq

/-- The per-thread step sequence of one operation run: the `get_client`
critical section, then the operation's register accesses outside it. -/
def opRun (accesses : List Nat) : List OpStep :=
  OpStep.acqLock :: OpStep.relLock :: accesses.map OpStep.access

/-- The steps of one thread of an interleaved trace. -/
def projThread (tr : List (Bool × OpStep)) (i : Bool) : List OpStep :=
  (tr.filter (fun p => p.1 == i)).map (fun p => p.2)

/-- The per-cabinet lock discipline, threaded over the trace with the
current holder: acquiring requires the lock free, releasing requires
being the holder; accesses do not consult the lock. -/
def lockOk : Option Bool → List (Bool × OpStep) → Bool
  | _, [] => true
  | none, (i, OpStep.acqLock) :: rest => lockOk (some i) rest
  | some _, (_, OpStep.acqLock) :: _ => false
  | some h, (i, OpStep.relLock) :: rest => h == i && lockOk none rest
  | none, (_, OpStep.relLock) :: _ => false
  | st, (_, OpStep.access _) :: rest => lockOk st rest

/-- The thread tags of the register accesses of a trace, in order. -/
def accSeq (tr : List (Bool × OpStep)) : List Bool :=
  tr.filterMap (fun p => match p.2 with
    | OpStep.access _ => some p.1
    | _ => none)

/-- The thread tags of the lock events (acquires and releases) of a
trace, in order. -/
def lockSeq (tr : List (Bool × OpStep)) : List Bool :=
  tr.filterMap (fun p => match p.2 with
    | OpStep.access _ => none
    | _ => some p.1)

/-- A tag sequence is serialized when all tags of one thread precede all
tags of the other: some leading block of one tag, then only the other. -/
def serializedTags : List Bool → Bool
  | [] => true
  | a :: rest => (rest.dropWhile (fun b => b == a)).all (fun b => b == !a)

/-- Lock events come in non-overlapping acquire/release blocks: threaded
check that, from a free lock, consecutive lock events pair up as an
acquire and a release by the same thread. -/
def pairedFrom : Option Bool → List Bool → Bool
  | _, [] => true
  | none, a :: rest => pairedFrom (some a) rest
  | some h, a :: rest => h == a && pairedFrom none rest

/-! ## The storage state machine
(`drone_storage_controller.py`, `door_controller.py`)

`execute_storage_process` is a straight-line sequence of client calls.
The embedding works at the granularity of those calls: each client write,
composite read, wait, and connection check consults an oracle `Env`
indexed by a running call counter, and appends an event to a trace.
Registers are identified by their symbolic names, as in the source.
Timeout values and the fixed settle sleeps (`time.sleep(2)` before the
branch read) do not influence which calls happen and are not recorded.

The flag `imp` says whether the free name `modbus_client` resolves in
`drone_storage_controller.py` / `user_send_controller.py` (see the file
docstring): with `imp = false` (the literal source) every method body
that references it raises `NameError` at that reference, which the
enclosing `except` turns into the method's failure return before any
client call happens. -/

/-- One observable client call of the storage machine. -/
inductive Ev where
  | readReg : String → Option Nat → Ev
  | writeReg : String → Nat → Bool → Ev
  | waitReg : String → Nat → Bool → Ev
  | connCheck : Bool → Ev
  | doorOpenCall : Ev
  | doorCloseCall : Ev
deriving DecidableEq

/-- The oracle for the storage machine: outcome of the i-th client call,
by call kind.  `readRes i name` answers the i-th call when it is a
composite read of register `name`; similarly for writes, waits and
connection checks. -/
structure Env where
  readRes : Nat → String → Option Nat
  writeOk : Nat → String → Nat → Bool
  waitOk : Nat → String → Nat → Bool
  connOk : Nat → Bool

/-- Running state of one storage run: the call counter and the event
trace so far. -/
structure St where
  idx : Nat
  trace : List Ev
deriving DecidableEq

/-- The initial run state. -/
def St.start : St := ⟨0, []⟩

/-- One composite register read (`read_register_with_retry` or
`read_register_by_name`; retry internals are modelled separately by
`read_holding_register`). -/
def doRead (env : Env) (r : String) (s : St) : Option Nat × St :=
  let res := env.readRes s.idx r
  (res, ⟨s.idx + 1, s.trace ++ [Ev.readReg r res]⟩)

/-- One client write (`write_register_by_name`). -/
def doWrite (env : Env) (r : String) (v : Nat) (s : St) : Bool × St :=
  let ok := env.writeOk s.idx r v
  (ok, ⟨s.idx + 1, s.trace ++ [Ev.writeReg r v ok]⟩)

/-- One blocking wait (`wait_for_register_value`; its polling internals
are modelled separately by `waitLoop`). -/
def doWait (env : Env) (r : String) (expected : Nat) (s : St) : Bool × St :=
  let ok := env.waitOk s.idx r expected
  (ok, ⟨s.idx + 1, s.trace ++ [Ev.waitReg r expected ok]⟩)

/-- One `check_connection` call. -/
def doConn (env : Env) (s : St) : Bool × St :=
  let ok := env.connOk s.idx
  (ok, ⟨s.idx + 1, s.trace ++ [Ev.connCheck ok]⟩)

/-- `DoorController.open_door` (module `door_controller.py`, which
does import the client): connection check, write `DOOR_OPEN`, wait for
`DOOR_OPEN_COMPLETE`; fails as soon as a step fails.  The entry of the
call is recorded so door attempts can be counted. -/
def open_door (env : Env) (s : St) : Bool × St :=
  let s := { s with trace := s.trace ++ [Ev.doorOpenCall] }
  let (c, s) := doConn env s
  if c then
    let (w, s) := doWrite env "DOOR_CONTROL" DOOR_OPEN s
    if w then doWait env "DOOR_CONTROL" DOOR_OPEN_COMPLETE s
    else (false, s)
  else (false, s)

/-- `DoorController.close_door`: symmetric to `open_door` with
`DOOR_CLOSE` / `DOOR_CLOSE_COMPLETE`. -/
def close_door (env : Env) (s : St) : Bool × St :=
  let s := { s with trace := s.trace ++ [Ev.doorCloseCall] }
  let (c, s) := doConn env s
  if c then
    let (w, s) := doWrite env "DOOR_CONTROL" DOOR_CLOSE s
    if w then doWait env "DOOR_CONTROL" DOOR_CLOSE_COMPLETE s
    else (false, s)
  else (false, s)

/-- `DroneStorageController.check_storage_capacity`: one composite read of
`STORAGE_STATUS` via the inherited `read_register_with_retry`;
`STORAGE_FULL` ↦ `False`, `STORAGE_AVAILABLE` ↦ `True`, anything else
(including a failed read) ↦ `None`. -/
def check_storage_capacity (env : Env) (s : St) : Option Bool × St :=
  let (st, s) := doRead env "STORAGE_STATUS" s
  match st with
  | none => (none, s)
  | some v =>
    if v = STORAGE_FULL then (some false, s)
    else if v = STORAGE_AVAILABLE then (some true, s)
    else (none, s)

/-- `DroneStorageController.confirm_drone_landing`: write `DRONE_PRESENT`
to the landing-pad register, then wait for `DRONE_PRESENT_CONFIRM`.
With `imp = false` the first `modbus_client` reference raises `NameError`,
caught by the method's `except`: `False` with no client call. -/
def confirm_drone_landing (imp : Bool) (env : Env) (s : St) : Bool × St :=
  if imp then
    let (w, s) := doWrite env "LANDING_PAD_STATUS" DRONE_PRESENT s
    if w then doWait env "LANDING_PAD_STATUS" DRONE_PRESENT_CONFIRM s
    else (false, s)
  else (false, s)

/-- `DroneStorageController.confirm_drone_takeoff`: write `DRONE_ABSENT`,
wait for `DRONE_ABSENT_CONFIRM`; `NameError` as in
`confirm_drone_landing` when `imp = false`. -/
def confirm_drone_takeoff (imp : Bool) (env : Env) (s : St) : Bool × St :=
  if imp then
    let (w, s) := doWrite env "LANDING_PAD_STATUS" DRONE_ABSENT s
    if w then doWait env "LANDING_PAD_STATUS" DRONE_ABSENT_CONFIRM s
    else (false, s)
  else (false, s)

/-- `DroneStorageController.start_storage_operation`: write
`STORE_PACKAGE` to the package-operation register. -/
def start_storage_operation (imp : Bool) (env : Env) (s : St) : Bool × St :=
  if imp then doWrite env "DRONE_PACKAGE_OP" STORE_PACKAGE s
  else (false, s)

/-- Python `str.isdigit` on the ASCII digits (it also accepts other
Unicode digit characters, which no claim's concrete inputs use). -/
def pyIsDigit (c : Char) : Bool :=
  decide ('0' ≤ c) && decide (c ≤ '9')

/-- Python `int` on a string of ASCII digits. -/
def pyInt (cs : List Char) : Nat :=
  cs.foldl (fun a c => 10 * a + (c.toNat - 48)) 0

/-- `DroneStorageController.set_pickup_code`: reject a code that is not 6
digits before anything else; then write the front three digits to
`PICKUP_CODE_FRONT` and the rear three to `PICKUP_CODE_REAR`.  With
`imp = false` the first write raises `NameError` (the `int` conversions
precede it and succeed on digits), caught: `False` with no client call. -/
def set_pickup_code (imp : Bool) (env : Env) (code : List Char) (s : St) : Bool × St :=
  if code.length = 6 && code.all pyIsDigit then
    if imp then
      let (w, s) := doWrite env "PICKUP_CODE_FRONT" (pyInt (code.take 3)) s
      if w then doWrite env "PICKUP_CODE_REAR" (pyInt (code.drop 3)) s
      else (false, s)
    else (false, s)
  else (false, s)

/-- `UserSendController.set_send_code` (`user_send_controller.py`): same
shape as `set_pickup_code` over `SEND_CODE_FRONT` / `SEND_CODE_REAR`;
that module also lacks the `modbus_client` import. -/
def set_send_code (imp : Bool) (env : Env) (code : List Char) (s : St) : Bool × St :=
  if code.length = 6 && code.all pyIsDigit then
    if imp then
      let (w, s) := doWrite env "SEND_CODE_FRONT" (pyInt (code.take 3)) s
      if w then doWrite env "SEND_CODE_REAR" (pyInt (code.drop 3)) s
      else (false, s)
    else (false, s)
  else (false, s)

/-- `DroneStorageController.control_servo('open')`: wait `SERVO_CAN_OPEN`,
write `SERVO_OPEN`, wait `SERVO_OPEN_CONFIRM`. -/
def control_servo_open (imp : Bool) (env : Env) (s : St) : Bool × St :=
  if imp then
    let (a, s) := doWait env "DRONE_SERVO" SERVO_CAN_OPEN s
    if a then
      let (w, s) := doWrite env "DRONE_SERVO" SERVO_OPEN s
      if w then doWait env "DRONE_SERVO" SERVO_OPEN_CONFIRM s
      else (false, s)
    else (false, s)
  else (false, s)

/-- `DroneStorageController.control_servo('close')`: wait
`SERVO_CAN_CLOSE`, write `SERVO_CLOSE`, wait `SERVO_CLOSE_CONFIRM`. -/
def control_servo_close (imp : Bool) (env : Env) (s : St) : Bool × St :=
  if imp then
    let (a, s) := doWait env "DRONE_SERVO" SERVO_CAN_CLOSE s
    if a then
      let (w, s) := doWrite env "DRONE_SERVO" SERVO_CLOSE s
      if w then doWait env "DRONE_SERVO" SERVO_CLOSE_CONFIRM s
      else (false, s)
    else (false, s)
  else (false, s)

/-- `DroneStorageController.get_storage_position`: read `DRONE_STORE_POS`
and translate the position code through `position_map` (unknown codes and
failed reads give `None`). -/
def get_storage_position (imp : Bool) (env : Env) (s : St) : Option Nat × St :=
  if imp then
    let (p, s) := doRead env "DRONE_STORE_POS" s
    match p with
    | none => (none, s)
    | some v =>
      if v = POSITION_1 then (some 1, s)
      else if v = POSITION_2 then (some 2, s)
      else if v = POSITION_3 then (some 3, s)
      else (none, s)
  else (none, s)

/-- Steps 8–10 of `execute_storage_process`: confirm takeoff (a failure
here returns at once, with no door close), close the door, read the
storage position; on full success return `(True, position)`. -/
def storage_finish (imp : Bool) (env : Env) (s : St) : Bool × Option Nat × St :=
  let (t, s) := confirm_drone_takeoff imp env s
  if t then
    let (c, s) := close_door env s
    if c then
      let (pos, s) := get_storage_position imp env s
      (true, pos, s)
    else (false, none, s)
  else (false, none, s)

/-- The rollback used by steps 4–6 of `execute_storage_process` (and by
its outer exception handler): attempt takeoff confirmation, then one door
close, then fail. -/
def storage_rollback (imp : Bool) (env : Env) (s : St) : Bool × Option Nat × St :=
  let (_, s) := confirm_drone_takeoff imp env s
  let (_, s) := close_door env s
  (false, none, s)

/-- `DroneStorageController.execute_storage_process`.  Mirrors the source
step by step:

1. capacity check — any result other than "available" returns at once;
2. door open — failure returns at once;
3. landing confirmation — failure closes the door once and returns;
4. `STORE_PACKAGE` write, 5. pickup code, 6. servo open — a failure in
   any of these runs the takeoff-plus-door-close rollback and returns;
7. one read of the package-operation register, then the two-way branch:
   `PICKUP_IN_PROGRESS` (120) → servo close then wait `PICKUP_COMPLETE`;
   `NO_PICKUP_COMPLETE` (122) → servo close; any other value (or a failed
   read) only logs a warning and falls through to step 8.
   With `imp = false` this read raises `NameError`, caught by the outer
   handler which runs the rollback;
8–10. `storage_finish`. -/
def execute_storage_process (imp : Bool) (env : Env) (code : List Char) (s : St) :
    Bool × Option Nat × St :=
  let (cap, s) := check_storage_capacity env s
  match cap with
  | some true =>
    let (d, s) := open_door env s
    if d then
      let (l, s) := confirm_drone_landing imp env s
      if l then
        let (op, s) := start_storage_operation imp env s
        if op then
          let (pc, s) := set_pickup_code imp env code s
          if pc then
            let (so, s) := control_servo_open imp env s
            if so then
              if imp then
                let (ps, s) := doRead env "DRONE_PACKAGE_OP" s
                if ps = some PICKUP_IN_PROGRESS then
                  let (sc, s) := control_servo_close imp env s
                  if sc then
                    let (pw, s) := doWait env "DRONE_PACKAGE_OP" PICKUP_COMPLETE s
                    if pw then storage_finish imp env s
                    else (false, none, s)
                  else (false, none, s)
                else if ps = some NO_PICKUP_COMPLETE then
                  let (sc, s) := control_servo_close imp env s
                  if sc then storage_finish imp env s
                  else (false, none, s)
                else storage_finish imp env s
              else storage_rollback imp env s
            else storage_rollback imp env s
          else storage_rollback imp env s
        else storage_rollback imp env s
      else
        let (_, s) := close_door env s
        (false, none, s)
    else (false, none, s)
  | _ => (false, none, s)

/-- The writes of a storage-run trace (register writes attempted on the
client by any step, the door subsystem included). -/
def traceWrites (tr : List Ev) : List Ev :=
  tr.filter (fun e => match e with
    | Ev.writeReg _ _ _ => true
    | _ => false)

/-- How many door-close attempts (`close_door` invocations) a trace holds. -/
def countDoorClose : List Ev → Nat
  | [] => 0
  | Ev.doorCloseCall :: r => countDoorClose r + 1
  | _ :: r => countDoorClose r

/-- Lock events (acquires and releases) in one thread's step sequence. -/
def lockCount (l : List OpStep) : Nat :=
  (l.filter (fun st => match st with
    | OpStep.access _ => false
    | _ => true)).length

/-! ## Concrete instances used by the witnesses and counterexamples -/

/-- The pickup code "123456". -/
def code123456 : List Char := ['1', '2', '3', '4', '5', '6']

/-- A transport whose first read attempt fails and whose second succeeds
with 5. -/
def attSecondTry : Nat → Option Nat :=
  fun k => if k = 1 then some 5 else none

/-- An environment in which every client call succeeds and every
composite read fails. -/
def envAllOk : Env :=
  ⟨fun _ _ => none, fun _ _ _ => true, fun _ _ _ => true, fun _ => true⟩

/-- An environment for a full storage run: capacity reads available, the
branch read yields the unrecognized value 999, the position read yields
`POSITION_1`; every write, wait and connection check succeeds. -/
def envBranch999 : Env :=
  ⟨fun i _ => if i = 0 then some STORAGE_AVAILABLE
    else if i = 12 then some 999
    else if i = 18 then some POSITION_1
    else none,
   fun _ _ _ => true, fun _ _ _ => true, fun _ => true⟩

/-- An environment whose storage-status read reports the cabinet full. -/
def envFull : Env :=
  ⟨fun _ _ => some STORAGE_FULL, fun _ _ _ => true, fun _ _ _ => true, fun _ => true⟩

/-- An environment in which the landing-confirmation wait (the 6th client
call, index 5) times out and everything else succeeds. -/
def envLandingTimeout : Env :=
  ⟨fun i _ => if i = 0 then some STORAGE_AVAILABLE else none,
   fun _ _ _ => true, fun i _ _ => decide (i ≠ 5), fun _ => true⟩

/-- A poll stream whose first two reads fail and whose third yields 7. -/
def pollThirdMatch : Nat → Option Nat :=
  fun k => if k = 2 then some 7 else none

/-- A poll stream whose every read fails. -/
def pollAllFail : Nat → Option Nat :=
  fun _ => none

/-- Zero-duration poll reads. -/
def durZero : Nat → Nat :=
  fun _ => 0

/-- An interleaved two-run trace against the same cabinet: both runs
acquire and release the per-cabinet lock (serialized, as the lock
discipline requires), then their register accesses alternate. -/
def trInterleaved : List (Bool × OpStep) :=
  [(false, OpStep.acqLock), (false, OpStep.relLock),
   (true, OpStep.acqLock), (true, OpStep.relLock),
   (false, OpStep.access 0xBB8), (true, OpStep.access 0xBB8),
   (false, OpStep.access 0xBB9), (true, OpStep.access 0xBB9)]

/-! ## Theorems -/

/-! ### The bounded retry loop (claims C7, C10) -/

/-- Helper: the retry loop performs at most `n` further attempts. -/
lemma readAttemptLoop_idx_le (attempts : Nat → Option Nat) :
    ∀ n k, (readAttemptLoop attempts n k).2 ≤ k + n := by
  intro n
  induction n with
  | zero => intro k; simp [readAttemptLoop]
  | succ n ih =>
    intro k
    cases h : attempts k with
    | some v => simp only [readAttemptLoop, h]; omega
    | none =>
      have := ih (k + 1)
      simp only [readAttemptLoop, h]
      omega

/-- Helper: a successful retry loop returns the first success, stopping
right after it. -/
lemma readAttemptLoop_some (attempts : Nat → Option Nat) :
    ∀ n k v, (readAttemptLoop attempts n k).1 = some v →
      ∃ j, j < n ∧ attempts (k + j) = some v ∧ (∀ i, i < j → attempts (k + i) = none) ∧
        (readAttemptLoop attempts n k).2 = k + j + 1 := by
  intro n
  induction n with
  | zero => intro k v h; simp [readAttemptLoop] at h
  | succ n ih =>
    intro k v h
    cases ha : attempts k with
    | some w =>
      simp only [readAttemptLoop, ha] at h ⊢
      refine ⟨0, by omega, ?_, by omega, by omega⟩
      simpa [ha] using h
    | none =>
      simp only [readAttemptLoop, ha] at h ⊢
      obtain ⟨j, hj, hjv, hfail, hidx⟩ := ih (k + 1) v h
      refine ⟨j + 1, by omega, ?_, ?_, by omega⟩
      · have e : k + (j + 1) = k + 1 + j := by omega
        rw [e]; exact hjv
      · intro i hi
        cases i with
        | zero => simpa using ha
        | succ i =>
          have e : k + (i + 1) = k + 1 + i := by omega
          rw [e]; exact hfail i (by omega)

/-- Helper: the retry loop returns `none` only when every attempt failed. -/
lemma readAttemptLoop_none (attempts : Nat → Option Nat) :
    ∀ n k, (readAttemptLoop attempts n k).1 = none →
      ∀ j, j < n → attempts (k + j) = none := by
  intro n
  induction n with
  | zero => intro k _ j hj; omega
  | succ n ih =>
    intro k h j hj
    cases ha : attempts k with
    | some w => simp [readAttemptLoop, ha] at h
    | none =>
      simp only [readAttemptLoop, ha] at h
      cases j with
      | zero => simpa using ha
      | succ j =>
        have e : k + (j + 1) = k + 1 + j := by omega
        rw [e]; exact ih (k + 1) h j (by omega)

/-- C7: `ModbusClient.read_holding_register` performs at most
`retry_count` transport attempts, returns the value of the first
successful attempt and performs no further attempt after it, and yields
`None` (the `IOError` outcome) only when all `retry_count` attempts
failed.  (If the client is not connected the method returns `None`
before any attempt; the contract here is about a connected client.) -/
theorem read_holding_register_retry_contract (retry_count : Nat)
    (attempts : Nat → Option Nat) :
    (read_holding_register true retry_count attempts).2 ≤ retry_count ∧
    (∀ v, (read_holding_register true retry_count attempts).1 = some v →
      ∃ j, j < retry_count ∧ attempts j = some v ∧ (∀ i, i < j → attempts i = none) ∧
        (read_holding_register true retry_count attempts).2 = j + 1) ∧
    ((read_holding_register true retry_count attempts).1 = none →
      ∀ j, j < retry_count → attempts j = none) := by
  refine ⟨?_, ?_, ?_⟩
  · simpa [read_holding_register] using readAttemptLoop_idx_le attempts retry_count 0
  · intro v h
    obtain ⟨j, hj, hjv, hfail, hidx⟩ :=
      readAttemptLoop_some attempts retry_count 0 v (by simpa [read_holding_register] using h)
    exact ⟨j, hj, by simpa using hjv, by simpa using hfail,
      by simpa [read_holding_register] using hidx⟩
  · intro h j hj
    simpa using readAttemptLoop_none attempts retry_count 0
      (by simpa [read_holding_register] using h) j hj

/-- Witness for C7 on a concrete transport whose first attempt fails and
whose second succeeds with value 5. -/
theorem read_holding_register_retry_contract_witness :
    (read_holding_register true 3 attSecondTry).2 ≤ 3 ∧
    ∃ j, j < 3 ∧ attSecondTry j = some 5 ∧ (∀ i, i < j → attSecondTry i = none) ∧
      (read_holding_register true 3 attSecondTry).2 = j + 1 :=
  ⟨(read_holding_register_retry_contract 3 attSecondTry).1,
   (read_holding_register_retry_contract 3 attSecondTry).2.1 5 (by decide)⟩

/-- C10: a register name outside the register map is rejected by
`read_register_by_name` / `write_register_by_name` before the transport
is touched: `None` / `False` with zero transport attempts and zero wire
writes. -/
theorem unknown_register_name_no_transport (connected : Bool) (retry_count : Nat)
    (attempts : Nat → Option Nat) (writeOk : Nat → Bool) (name : String) (value : Nat)
    (h : regAddr name = none) :
    read_register_by_name connected retry_count attempts name = (none, 0) ∧
    write_register_by_name connected retry_count writeOk name value = (false, []) := by
  constructor <;> simp [read_register_by_name, write_register_by_name, h]

/-- Witness for C10 at the unknown name "NOT_A_REGISTER". -/
theorem unknown_register_name_no_transport_witness :
    read_register_by_name true 3 attSecondTry "NOT_A_REGISTER" = (none, 0) ∧
    write_register_by_name true 3 (fun _ => true) "NOT_A_REGISTER" 7 = (false, []) :=
  unknown_register_name_no_transport true 3 attSecondTry (fun _ => true)
    "NOT_A_REGISTER" 7 (by decide)

/-! ### Session health bookkeeping (claim C8) -/

/-- C8: `MachineConnection` health contract: a successful `get_client`
attempt increments `connection_count` and resets `error_count` to zero; a
failed attempt increments `error_count` and records the error; and for
every state with `connection_count > 0`, `is_healthy` holds exactly when
`error_count / (connection_count + error_count) < 0.5`.  (With
`connection_count = 0` the source falls back to `error_count < 5`.) -/
theorem connection_health_contract :
    (∀ c : MachineConnection, get_client_update c none =
        ⟨c.connection_count + 1, 0, c.last_error⟩) ∧
    (∀ (c : MachineConnection) (e : String), get_client_update c (some e) =
        ⟨c.connection_count, c.error_count + 1, some e⟩) ∧
    (∀ c : MachineConnection, 0 < c.connection_count →
        (is_healthy c = true ↔
          (c.error_count : ℚ) / ((c.connection_count : ℚ) + (c.error_count : ℚ)) < 1/2)) := by
  refine ⟨fun c => rfl, fun c e => rfl, fun c hc => ?_⟩
  simp [is_healthy, hc]

/-- Witness for C8: three successes and one error is a healthy session. -/
theorem connection_health_contract_witness :
    is_healthy ⟨3, 1, none⟩ = true := by
  have h := connection_health_contract.2.2 ⟨3, 1, none⟩ (by decide)
  exact h.mpr (by norm_num)

/-! ### Pickup/send code setting (claim C3)

The claim reads `set_pickup_code` / `set_send_code` as writing the two
3-digit halves; the literal modules cannot: they reference
`modbus_client` without importing it, so on any input that passes the
6-digit validation the first write raises `NameError`, the `except`
block returns `False`, and no write reaches the client. -/

/-- C3 (code evaluated at the failing input): on the valid code
"123456" the literal modules (`imp = false`) return `False` with an
empty trace — no write ever reaches the transport — while the modules
with the `modbus_client` name resolved (`imp = true`, the evident
intent) write 123 to the front register and 456 to the rear register
and succeed. -/
theorem set_code_missing_import_never_writes :
    set_pickup_code false envAllOk code123456 St.start = (false, St.start) ∧
    set_send_code false envAllOk code123456 St.start = (false, St.start) ∧
    set_pickup_code true envAllOk code123456 St.start =
      (true, ⟨2, [Ev.writeReg "PICKUP_CODE_FRONT" 123 true,
                  Ev.writeReg "PICKUP_CODE_REAR" 456 true]⟩) ∧
    set_send_code true envAllOk code123456 St.start =
      (true, ⟨2, [Ev.writeReg "SEND_CODE_FRONT" 123 true,
                  Ev.writeReg "SEND_CODE_REAR" 456 true]⟩) := by
  refine ⟨?_, ?_, ?_, ?_⟩ <;> decide

/-! ### The storage state machine (claims C4, C5, C1) -/

/-- Helper: door-close attempts in a concatenated trace. -/
lemma countDoorClose_append (l1 l2 : List Ev) :
    countDoorClose (l1 ++ l2) = countDoorClose l1 + countDoorClose l2 := by
  induction l1 with
  | nil => simp [countDoorClose]
  | cons e r ih =>
    cases e
    all_goals simp only [List.cons_append, List.append_eq, countDoorClose] at ih ⊢
    all_goals omega

/-- Helper: `close_door` contributes exactly one door-close attempt to
the trace, whichever way its connection check, write and wait turn out. -/
lemma close_door_count (env : Env) (s : St) :
    countDoorClose (close_door env s).2.trace = countDoorClose s.trace + 1 := by
  simp only [close_door, doConn, doWrite, doWait]
  by_cases hc : env.connOk (s.idx) <;>
    by_cases hw : env.writeOk (s.idx + 1) "DOOR_CONTROL" DOOR_CLOSE <;>
      simp [hc, hw, countDoorClose_append, countDoorClose]

/-- C4: when the capacity check reads `STORAGE_FULL` the storage run
fails at once: the entire run consists of that single read — no door,
landing-pad, package-operation, servo or code register is written (the
trace holds no write at all). -/
theorem storage_full_fails_without_writes (imp : Bool) (env : Env) (code : List Char)
    (h : env.readRes 0 "STORAGE_STATUS" = some STORAGE_FULL) :
    execute_storage_process imp env code St.start =
      (false, none, ⟨1, [Ev.readReg "STORAGE_STATUS" (some STORAGE_FULL)]⟩) ∧
    traceWrites (execute_storage_process imp env code St.start).2.2.trace = [] := by
  have he : execute_storage_process imp env code St.start =
      (false, none, ⟨1, [Ev.readReg "STORAGE_STATUS" (some STORAGE_FULL)]⟩) := by
    simp [execute_storage_process, check_storage_capacity, doRead, St.start, h,
      STORAGE_FULL, STORAGE_AVAILABLE]
  exact ⟨he, by rw [he]; rfl⟩

/-- Witness for C4 in an environment whose status read reports full. -/
theorem storage_full_fails_without_writes_witness :
    execute_storage_process true envFull code123456 St.start =
      (false, none, ⟨1, [Ev.readReg "STORAGE_STATUS" (some STORAGE_FULL)]⟩) ∧
    traceWrites (execute_storage_process true envFull code123456 St.start).2.2.trace = [] :=
  storage_full_fails_without_writes true envFull code123456 rfl

/-- C5: if, after the capacity check passed and the door opened, the
landing confirmation step fails — the `modbus_client` name fails to
resolve (the literal module), the `DRONE_PRESENT` write fails, or the
`DRONE_PRESENT_CONFIRM` wait times out — then the run performs exactly
one door-close attempt and returns failure. -/
theorem landing_failure_single_door_close (imp : Bool) (env : Env) (code : List Char)
    (h0 : env.readRes 0 "STORAGE_STATUS" = some STORAGE_AVAILABLE)
    (h1 : env.connOk 1 = true)
    (h2 : env.writeOk 2 "DOOR_CONTROL" DOOR_OPEN = true)
    (h3 : env.waitOk 3 "DOOR_CONTROL" DOOR_OPEN_COMPLETE = true)
    (hL : imp = false ∨ env.writeOk 4 "LANDING_PAD_STATUS" DRONE_PRESENT = false ∨
      (env.writeOk 4 "LANDING_PAD_STATUS" DRONE_PRESENT = true ∧
        env.waitOk 5 "LANDING_PAD_STATUS" DRONE_PRESENT_CONFIRM = false)) :
    (execute_storage_process imp env code St.start).1 = false ∧
    countDoorClose (execute_storage_process imp env code St.start).2.2.trace = 1 := by
  rcases hL with hL | hL | ⟨hLw, hLt⟩
  · subst hL
    simp [execute_storage_process, check_storage_capacity, open_door,
      confirm_drone_landing, doRead, doConn, doWrite, doWait, St.start,
      h0, h1, h2, h3, STORAGE_FULL, STORAGE_AVAILABLE, close_door_count,
      countDoorClose_append, countDoorClose]
  · cases imp with
    | false =>
      simp [execute_storage_process, check_storage_capacity, open_door,
        confirm_drone_landing, doRead, doConn, doWrite, doWait, St.start,
        h0, h1, h2, h3, STORAGE_FULL, STORAGE_AVAILABLE, close_door_count,
        countDoorClose_append, countDoorClose]
    | true =>
      simp [execute_storage_process, check_storage_capacity, open_door,
        confirm_drone_landing, doRead, doConn, doWrite, doWait, St.start,
        h0, h1, h2, h3, hL, STORAGE_FULL, STORAGE_AVAILABLE, close_door_count,
        countDoorClose_append, countDoorClose]
  · cases imp with
    | false =>
      simp [execute_storage_process, check_storage_capacity, open_door,
        confirm_drone_landing, doRead, doConn, doWrite, doWait, St.start,
        h0, h1, h2, h3, STORAGE_FULL, STORAGE_AVAILABLE, close_door_count,
        countDoorClose_append, countDoorClose]
    | true =>
      simp [execute_storage_process, check_storage_capacity, open_door,
        confirm_drone_landing, doRead, doConn, doWrite, doWait, St.start,
        h0, h1, h2, h3, hLw, hLt, STORAGE_FULL, STORAGE_AVAILABLE, close_door_count,
        countDoorClose_append, countDoorClose]

/-- Witness for C5: the landing-confirmation wait times out and exactly
one door close follows. -/
theorem landing_failure_single_door_close_witness :
    (execute_storage_process true envLandingTimeout code123456 St.start).1 = false ∧
    countDoorClose (execute_storage_process true envLandingTimeout code123456 St.start).2.2.trace = 1 :=
  landing_failure_single_door_close true envLandingTimeout code123456
    (by decide) (by decide) (by decide) (by decide)
    (Or.inr (Or.inr ⟨by decide, by decide⟩))

/-- C1 (counterexample to the claim as stated): a storage run in which
every write, wait and connection check succeeds and the branch read of
the package-operation register observes 999 — neither
`PICKUP_IN_PROGRESS` (120) nor `NO_PICKUP_COMPLETE` (122) — does not
report any error: it returns success (with a storage position), so the
unrecognized branch value is not reported as a protocol violation. -/
theorem storage_branch_unrecognized_run_succeeds :
    (execute_storage_process true envBranch999 code123456 St.start).1 = true ∧
    Ev.readReg "DRONE_PACKAGE_OP" (some 999) ∈
      (execute_storage_process true envBranch999 code123456 St.start).2.2.trace ∧
    999 ≠ PICKUP_IN_PROGRESS ∧ 999 ≠ NO_PICKUP_COMPLETE := by
  refine ⟨?_, ?_, ?_, ?_⟩ <;> decide

/-- C1 (amended): when the branch read of the package-operation register
observes an unrecognized value `v` (neither 120 nor 122), the run
executes neither branch continuation — no `SERVO_CAN_CLOSE` wait, no
`SERVO_CLOSE` write, no `PICKUP_COMPLETE` wait ever appears in the
trace — but no error is reported either: the machine logs a warning,
proceeds with the takeoff handshake (`DRONE_ABSENT` is written) and the
door close, and returns success. -/
theorem storage_branch_unrecognized_skips_both (env : Env) (v : Nat)
    (hc : ∀ i, env.connOk i = true)
    (hw : ∀ i r x, env.writeOk i r x = true)
    (ht : ∀ i r x, env.waitOk i r x = true)
    (h0 : env.readRes 0 "STORAGE_STATUS" = some STORAGE_AVAILABLE)
    (hb : env.readRes 12 "DRONE_PACKAGE_OP" = some v)
    (hp : env.readRes 18 "DRONE_STORE_POS" = some POSITION_1)
    (hv1 : v ≠ PICKUP_IN_PROGRESS) (hv2 : v ≠ NO_PICKUP_COMPLETE) :
    (execute_storage_process true env code123456 St.start).1 = true ∧
    Ev.readReg "DRONE_PACKAGE_OP" (some v) ∈
      (execute_storage_process true env code123456 St.start).2.2.trace ∧
    (∀ b, Ev.waitReg "DRONE_SERVO" SERVO_CAN_CLOSE b ∉
      (execute_storage_process true env code123456 St.start).2.2.trace) ∧
    (∀ b, Ev.writeReg "DRONE_SERVO" SERVO_CLOSE b ∉
      (execute_storage_process true env code123456 St.start).2.2.trace) ∧
    (∀ b, Ev.waitReg "DRONE_PACKAGE_OP" PICKUP_COMPLETE b ∉
      (execute_storage_process true env code123456 St.start).2.2.trace) ∧
    Ev.writeReg "LANDING_PAD_STATUS" DRONE_ABSENT true ∈
      (execute_storage_process true env code123456 St.start).2.2.trace := by
  have he : execute_storage_process true env code123456 St.start =
      (true, some 1,
        ⟨19, [Ev.readReg "STORAGE_STATUS" (some STORAGE_AVAILABLE),
              Ev.doorOpenCall,
              Ev.connCheck true,
              Ev.writeReg "DOOR_CONTROL" DOOR_OPEN true,
              Ev.waitReg "DOOR_CONTROL" DOOR_OPEN_COMPLETE true,
              Ev.writeReg "LANDING_PAD_STATUS" DRONE_PRESENT true,
              Ev.waitReg "LANDING_PAD_STATUS" DRONE_PRESENT_CONFIRM true,
              Ev.writeReg "DRONE_PACKAGE_OP" STORE_PACKAGE true,
              Ev.writeReg "PICKUP_CODE_FRONT" 123 true,
              Ev.writeReg "PICKUP_CODE_REAR" 456 true,
              Ev.waitReg "DRONE_SERVO" SERVO_CAN_OPEN true,
              Ev.writeReg "DRONE_SERVO" SERVO_OPEN true,
              Ev.waitReg "DRONE_SERVO" SERVO_OPEN_CONFIRM true,
              Ev.readReg "DRONE_PACKAGE_OP" (some v),
              Ev.writeReg "LANDING_PAD_STATUS" DRONE_ABSENT true,
              Ev.waitReg "LANDING_PAD_STATUS" DRONE_ABSENT_CONFIRM true,
              Ev.doorCloseCall,
              Ev.connCheck true,
              Ev.writeReg "DOOR_CONTROL" DOOR_CLOSE true,
              Ev.waitReg "DOOR_CONTROL" DOOR_CLOSE_COMPLETE true,
              Ev.readReg "DRONE_STORE_POS" (some POSITION_1)]⟩) := by
    have hv1n : v ≠ 120 := by simpa [PICKUP_IN_PROGRESS] using hv1
    have hv2n : v ≠ 122 := by simpa [NO_PICKUP_COMPLETE] using hv2
    simp [execute_storage_process, check_storage_capacity, open_door, close_door,
      confirm_drone_landing, confirm_drone_takeoff, start_storage_operation,
      set_pickup_code, control_servo_open, control_servo_close,
      get_storage_position, storage_finish, storage_rollback,
      doRead, doConn, doWrite, doWait, St.start,
      hc, hw, ht, h0, hb, hp, hv1n, hv2n, code123456, pyIsDigit, pyInt,
      STORAGE_FULL, STORAGE_AVAILABLE, PICKUP_IN_PROGRESS, NO_PICKUP_COMPLETE,
      PICKUP_COMPLETE, STORE_PACKAGE, POSITION_1, POSITION_2, POSITION_3,
      DOOR_OPEN, DOOR_CLOSE, DOOR_OPEN_COMPLETE, DOOR_CLOSE_COMPLETE,
      DRONE_PRESENT, DRONE_ABSENT, DRONE_PRESENT_CONFIRM, DRONE_ABSENT_CONFIRM,
      SERVO_CAN_OPEN, SERVO_CAN_CLOSE, SERVO_OPEN, SERVO_CLOSE,
      SERVO_OPEN_CONFIRM, SERVO_CLOSE_CONFIRM]
  rw [he]
  refine ⟨rfl, by simp, ?_, ?_, ?_, by simp⟩ <;> intro b <;> simp [DOOR_OPEN,
    DOOR_CLOSE, DOOR_OPEN_COMPLETE, DOOR_CLOSE_COMPLETE, SERVO_CAN_CLOSE,
    SERVO_CLOSE, SERVO_CAN_OPEN, SERVO_OPEN, SERVO_OPEN_CONFIRM,
    PICKUP_COMPLETE, STORE_PACKAGE, DRONE_PRESENT, DRONE_ABSENT,
    DRONE_PRESENT_CONFIRM, DRONE_ABSENT_CONFIRM, STORAGE_AVAILABLE, POSITION_1]

/-- Witness for the amended C1 at the concrete environment with branch
value 999. -/
theorem storage_branch_unrecognized_skips_both_witness :
    (∀ b, Ev.waitReg "DRONE_SERVO" SERVO_CAN_CLOSE b ∉
      (execute_storage_process true envBranch999 code123456 St.start).2.2.trace) ∧
    Ev.writeReg "LANDING_PAD_STATUS" DRONE_ABSENT true ∈
      (execute_storage_process true envBranch999 code123456 St.start).2.2.trace := by
  have h := storage_branch_unrecognized_skips_both envBranch999 999
    (fun i => rfl) (fun i r x => rfl) (fun i r x => rfl)
    (by decide) (by decide) (by decide) (by decide) (by decide)
  exact ⟨h.2.2.1, h.2.2.2.2.2⟩

/-! ### The polling wait primitive (claims C2, C6) -/

/-- Unfolding: a wait-loop state past the deadline returns the timeout
outcome. -/
lemma waitLoop_past_deadline (expected : List Nat) (timeout interval : Nat)
    (hI : 0 < interval) (poll : Nat → Option Nat) (dur : Nat → Nat) (t k : Nat)
    (ht : ¬ t < timeout) :
    waitLoop expected timeout interval hI poll dur t k = ⟨none, k, t⟩ := by
  rw [waitLoop]
  simp [ht]

/-- Unfolding: before the deadline, a failed poll read continues the loop. -/
lemma waitLoop_step_none (expected : List Nat) (timeout interval : Nat)
    (hI : 0 < interval) (poll : Nat → Option Nat) (dur : Nat → Nat) (t k : Nat)
    (ht : t < timeout) (hp : poll k = none) :
    waitLoop expected timeout interval hI poll dur t k =
      waitLoop expected timeout interval hI poll dur (t + dur k + interval) (k + 1) := by
  conv_lhs => rw [waitLoop]
  simp [ht, hp]

/-- Unfolding: before the deadline, a poll read outside the expected set
continues the loop. -/
lemma waitLoop_step_nomatch (expected : List Nat) (timeout interval : Nat)
    (hI : 0 < interval) (poll : Nat → Option Nat) (dur : Nat → Nat) (t k v : Nat)
    (ht : t < timeout) (hp : poll k = some v) (hm : v ∉ expected) :
    waitLoop expected timeout interval hI poll dur t k =
      waitLoop expected timeout interval hI poll dur (t + dur k + interval) (k + 1) := by
  conv_lhs => rw [waitLoop]
  simp [ht, hp, hm]

/-- Unfolding: before the deadline, a poll read inside the expected set
returns it at once. -/
lemma waitLoop_step_match (expected : List Nat) (timeout interval : Nat)
    (hI : 0 < interval) (poll : Nat → Option Nat) (dur : Nat → Nat) (t k v : Nat)
    (ht : t < timeout) (hp : poll k = some v) (hm : v ∈ expected) :
    waitLoop expected timeout interval hI poll dur t k = ⟨some v, k + 1, t + dur k⟩ := by
  rw [waitLoop]
  simp [ht, hp, hm]

/-- Helper: the wait loop fails (`value = none`) only once the deadline
has been reached: the final time of a failed wait is at least `timeout`. -/
lemma waitLoop_none_deadline (expected : List Nat) (timeout interval : Nat)
    (hI : 0 < interval) (poll : Nat → Option Nat) (dur : Nat → Nat) :
    ∀ m t k, timeout - t ≤ m →
      (waitLoop expected timeout interval hI poll dur t k).value = none →
      timeout ≤ (waitLoop expected timeout interval hI poll dur t k).finalTime := by
  intro m
  induction m with
  | zero =>
    intro t k hm _
    have ht : ¬ t < timeout := by omega
    rw [waitLoop_past_deadline expected timeout interval hI poll dur t k ht]
    show timeout ≤ t
    omega
  | succ m ih =>
    intro t k hm hv
    by_cases ht : t < timeout
    · cases hpoll : poll k with
      | none =>
        rw [waitLoop_step_none expected timeout interval hI poll dur t k ht hpoll] at hv ⊢
        exact ih _ _ (by omega) hv
      | some w =>
        by_cases hmem : w ∈ expected
        · rw [waitLoop_step_match expected timeout interval hI poll dur t k w
            ht hpoll hmem] at hv
          simp at hv
        · rw [waitLoop_step_nomatch expected timeout interval hI poll dur t k w
            ht hpoll hmem] at hv ⊢
          exact ih _ _ (by omega) hv
    · rw [waitLoop_past_deadline expected timeout interval hI poll dur t k ht]
      show timeout ≤ t
      omega

/-- Helper: if no poll ever yields an expected value, the wait loop
returns `none`. -/
lemma waitLoop_never_match_none (expected : List Nat) (timeout interval : Nat)
    (hI : 0 < interval) (poll : Nat → Option Nat) (dur : Nat → Nat)
    (h : ∀ k v, poll k = some v → v ∉ expected) :
    ∀ m t k, timeout - t ≤ m →
      (waitLoop expected timeout interval hI poll dur t k).value = none := by
  intro m
  induction m with
  | zero =>
    intro t k hm
    have ht : ¬ t < timeout := by omega
    rw [waitLoop_past_deadline expected timeout interval hI poll dur t k ht]
  | succ m ih =>
    intro t k hm
    by_cases ht : t < timeout
    · cases hpoll : poll k with
      | none =>
        rw [waitLoop_step_none expected timeout interval hI poll dur t k ht hpoll]
        exact ih _ _ (by omega)
      | some w =>
        rw [waitLoop_step_nomatch expected timeout interval hI poll dur t k w
          ht hpoll (h k w hpoll)]
        exact ih _ _ (by omega)
    · rw [waitLoop_past_deadline expected timeout interval hI poll dur t k ht]

/-- Helper: if no poll ever matches, the number of polls `n` performed
from state `(t, k)` satisfies `n = k` or `(n - k - 1) * interval + t <
timeout` (the time before the last poll was still below the deadline). -/
lemma waitLoop_never_match_polls (expected : List Nat) (timeout interval : Nat)
    (hI : 0 < interval) (poll : Nat → Option Nat) (dur : Nat → Nat)
    (h : ∀ k v, poll k = some v → v ∉ expected) :
    ∀ m t k, timeout - t ≤ m →
      (waitLoop expected timeout interval hI poll dur t k).polls = k ∨
        (k + 1 ≤ (waitLoop expected timeout interval hI poll dur t k).polls ∧
          ((waitLoop expected timeout interval hI poll dur t k).polls - k - 1) * interval + t
            < timeout) := by
  intro m
  induction m with
  | zero =>
    intro t k hm
    have ht : ¬ t < timeout := by omega
    rw [waitLoop_past_deadline expected timeout interval hI poll dur t k ht]
    exact Or.inl rfl
  | succ m ih =>
    intro t k hm
    by_cases ht : t < timeout
    · have step : ∀ t2 : Nat, t + interval ≤ t2 →
          (waitLoop expected timeout interval hI poll dur t2 (k + 1)).polls = k + 1 ∨
            (k + 2 ≤ (waitLoop expected timeout interval hI poll dur t2 (k + 1)).polls ∧
              ((waitLoop expected timeout interval hI poll dur t2 (k + 1)).polls - (k + 1) - 1)
                  * interval + t2 < timeout) →
          (waitLoop expected timeout interval hI poll dur t2 (k + 1)).polls = k ∨
            (k + 1 ≤ (waitLoop expected timeout interval hI poll dur t2 (k + 1)).polls ∧
              ((waitLoop expected timeout interval hI poll dur t2 (k + 1)).polls - k - 1)
                  * interval + t < timeout) := by
        intro t2 ht2 hcase
        rcases hcase with heq | ⟨hge, hlt⟩
        · exact Or.inr ⟨by omega, by simp [heq]; omega⟩
        · refine Or.inr ⟨by omega, ?_⟩
          set n := (waitLoop expected timeout interval hI poll dur t2 (k + 1)).polls with hn
          have e : n - k - 1 = (n - (k + 1) - 1) + 1 := by omega
          rw [e, Nat.succ_mul]
          omega
      cases hpoll : poll k with
      | none =>
        rw [waitLoop_step_none expected timeout interval hI poll dur t k ht hpoll]
        exact step _ (by omega) (ih (t + dur k + interval) (k + 1) (by omega))
      | some w =>
        rw [waitLoop_step_nomatch expected timeout interval hI poll dur t k w
          ht hpoll (h k w hpoll)]
        exact step _ (by omega) (ih (t + dur k + interval) (k + 1) (by omega))
    · rw [waitLoop_past_deadline expected timeout interval hI poll dur t k ht]
      exact Or.inl rfl

/-- Helper: `j` failing polls followed by a matching poll, all begun
before the deadline, make the wait loop return that match after exactly
`j + 1` polls. -/
lemma waitLoop_fails_then_match (expected : List Nat) (timeout interval : Nat)
    (hI : 0 < interval) (poll : Nat → Option Nat) (dur : Nat → Nat) (v : Nat) :
    ∀ j t k, (∀ i, i < j → poll (k + i) = none) →
      poll (k + j) = some v → v ∈ expected →
      t + (∑ i ∈ Finset.range j, dur (k + i)) + j * interval < timeout →
      waitLoop expected timeout interval hI poll dur t k =
        ⟨some v, k + j + 1,
          t + (∑ i ∈ Finset.range j, dur (k + i)) + j * interval + dur (k + j)⟩ := by
  intro j
  induction j with
  | zero =>
    intro t k _ hmatch hmem hlt
    simp only [Finset.range_zero, Finset.sum_empty, Nat.add_zero, Nat.zero_mul] at hlt ⊢
    have ht : t < timeout := by omega
    rw [waitLoop_step_match expected timeout interval hI poll dur t k v ht
      (by simpa using hmatch) hmem]
  | succ j ih =>
    intro t k hfail hmatch hmem hlt
    have hsum : ∑ i ∈ Finset.range (j + 1), dur (k + i) =
        dur k + ∑ i ∈ Finset.range j, dur (k + 1 + i) := by
      rw [Finset.sum_range_succ' (fun i => dur (k + i)) j]
      have e : (∑ i ∈ Finset.range j, dur (k + (i + 1))) =
          ∑ i ∈ Finset.range j, dur (k + 1 + i) :=
        Finset.sum_congr rfl (fun i _ => by
          rw [show k + (i + 1) = k + 1 + i from by omega])
      rw [e]
      show (∑ i ∈ Finset.range j, dur (k + 1 + i)) + dur k =
        dur k + ∑ i ∈ Finset.range j, dur (k + 1 + i)
      omega
    have hmul : (j + 1) * interval = j * interval + interval := by
      rw [Nat.succ_mul]
    have ht : t < timeout := by
      rw [hsum] at hlt; omega
    have hp0 : poll k = none := by simpa using hfail 0 (by omega)
    rw [waitLoop_step_none expected timeout interval hI poll dur t k ht hp0]
    have hfail2 : ∀ i, i < j → poll (k + 1 + i) = none := by
      intro i hi
      have e : k + 1 + i = k + (i + 1) := by omega
      rw [e]; exact hfail (i + 1) (by omega)
    have hmatch2 : poll (k + 1 + j) = some v := by
      have e : k + 1 + j = k + (j + 1) := by omega
      rw [e]; exact hmatch
    have hlt2 : (t + dur k + interval) + (∑ i ∈ Finset.range j, dur (k + 1 + i)) +
        j * interval < timeout := by
      rw [hsum, hmul] at hlt; omega
    rw [ih (t + dur k + interval) (k + 1) hfail2 hmatch2 hmem hlt2]
    simp only [WaitOutcome.mk.injEq]
    refine ⟨by simp, by omega, ?_⟩
    rw [hsum, hmul, show k + (j + 1) = k + 1 + j from by omega]
    omega

/-- C2: a read failure inside the polling loop of
`wait_for_status_change` / `wait_for_register_value` never aborts the
wait.  First part: a failed wait only ever returns at or past the
deadline (so no read failure caused an early error).  Second part: if
the first `j` poll reads fail and the `(j+1)`-th read yields an expected
value before the deadline, both primitives keep polling through the
failures at the fixed interval and return that match. -/
theorem wait_read_failure_keeps_polling (expected : List Nat) (timeout interval : Nat)
    (hI : 0 < interval) (poll : Nat → Option Nat) (dur : Nat → Nat) :
    ((wait_for_status_change expected timeout interval hI poll dur).value = none →
      timeout ≤ (wait_for_status_change expected timeout interval hI poll dur).finalTime) ∧
    (∀ j v, (∀ i, i < j → poll i = none) → poll j = some v → v ∈ expected →
      (∑ i ∈ Finset.range j, dur i) + j * interval < timeout →
      wait_for_status_change expected timeout interval hI poll dur =
        ⟨some v, j + 1, (∑ i ∈ Finset.range j, dur i) + j * interval + dur j⟩ ∧
      wait_for_register_value v timeout interval hI poll dur =
        (true, j + 1, (∑ i ∈ Finset.range j, dur i) + j * interval + dur j)) := by
  constructor
  · exact waitLoop_none_deadline expected timeout interval hI poll dur timeout 0 0 (by omega)
  · intro j v hfail hmatch hmem hlt
    constructor
    · have h := waitLoop_fails_then_match expected timeout interval hI poll dur v j 0 0
        (by simpa using hfail) (by simpa using hmatch) hmem (by simpa using hlt)
      simpa [wait_for_status_change] using h
    · have h := waitLoop_fails_then_match [v] timeout interval hI poll dur v j 0 0
        (by simpa using hfail) (by simpa using hmatch) (by simp) (by simpa using hlt)
      simp only [wait_for_register_value]
      rw [show (0 : Nat) + j = j from by omega] at h
      rw [h]
      simp

/-- Witness for C2: two failing reads, then a match on the third poll,
inside a deadline of 10 with interval 1. -/
theorem wait_read_failure_keeps_polling_witness :
    wait_for_status_change [7] 10 1 Nat.one_pos pollThirdMatch durZero =
      ⟨some 7, 3, 2⟩ ∧
    wait_for_register_value 7 10 1 Nat.one_pos pollThirdMatch durZero = (true, 3, 2) := by
  have h := (wait_read_failure_keeps_polling [7] 10 1 Nat.one_pos pollThirdMatch durZero).2
    2 7 (by decide) (by decide) (by decide) (by decide)
  simpa [durZero] using h

/-- C6: against a register whose polls never yield an expected value,
both wait primitives report a timeout failure, their final time is at or
past the configured deadline (never before it), and the number of poll
reads performed is at most `timeout / interval + 1`. -/
theorem wait_never_match_timeout_bounds (expected : List Nat) (ev timeout interval : Nat)
    (hI : 0 < interval) (poll : Nat → Option Nat) (dur : Nat → Nat)
    (hnm : ∀ k v, poll k = some v → v ∉ expected)
    (hne : ∀ k, poll k ≠ some ev) :
    (wait_for_status_change expected timeout interval hI poll dur).value = none ∧
    timeout ≤ (wait_for_status_change expected timeout interval hI poll dur).finalTime ∧
    (wait_for_status_change expected timeout interval hI poll dur).polls ≤
      timeout / interval + 1 ∧
    (wait_for_register_value ev timeout interval hI poll dur).1 = false ∧
    timeout ≤ (wait_for_register_value ev timeout interval hI poll dur).2.2 ∧
    (wait_for_register_value ev timeout interval hI poll dur).2.1 ≤
      timeout / interval + 1 := by
  have hnm2 : ∀ k v, poll k = some v → v ∉ [ev] := by
    intro k v hp hmem
    have : v = ev := by simpa using hmem
    exact hne k (this ▸ hp)
  have bound : ∀ expected2 : List Nat, (∀ k v, poll k = some v → v ∉ expected2) →
      (waitLoop expected2 timeout interval hI poll dur 0 0).polls ≤
        timeout / interval + 1 := by
    intro expected2 h2
    rcases waitLoop_never_match_polls expected2 timeout interval hI poll dur h2
      timeout 0 0 (by omega) with heq | ⟨hge, hlt⟩
    · rw [heq]
      exact Nat.zero_le _
    · set n := (waitLoop expected2 timeout interval hI poll dur 0 0).polls with hn
      set q := timeout / interval with hq
      have hle : n - 0 - 1 ≤ q := by
        rw [hq, Nat.le_div_iff_mul_le hI]
        omega
      omega
  have hv1 := waitLoop_never_match_none expected timeout interval hI poll dur hnm
    timeout 0 0 (by omega)
  have hv2 := waitLoop_never_match_none [ev] timeout interval hI poll dur hnm2
    timeout 0 0 (by omega)
  refine ⟨hv1, ?_, bound expected hnm, ?_, ?_, bound [ev] hnm2⟩
  · exact waitLoop_none_deadline expected timeout interval hI poll dur timeout 0 0
      (by omega) hv1
  · simp [wait_for_register_value, hv2]
  · simpa [wait_for_register_value] using
      waitLoop_none_deadline [ev] timeout interval hI poll dur timeout 0 0 (by omega) hv2

/-- Witness for C6: every poll read fails; the wait times out at the
deadline 10 having polled at most 11 times. -/
theorem wait_never_match_timeout_bounds_witness :
    (wait_for_status_change [7] 10 1 Nat.one_pos pollAllFail durZero).value = none ∧
    10 ≤ (wait_for_status_change [7] 10 1 Nat.one_pos pollAllFail durZero).finalTime ∧
    (wait_for_status_change [7] 10 1 Nat.one_pos pollAllFail durZero).polls ≤ 10 / 1 + 1 ∧
    (wait_for_register_value 7 10 1 Nat.one_pos pollAllFail durZero).1 = false ∧
    10 ≤ (wait_for_register_value 7 10 1 Nat.one_pos pollAllFail durZero).2.2 ∧
    (wait_for_register_value 7 10 1 Nat.one_pos pollAllFail durZero).2.1 ≤ 10 / 1 + 1 :=
  wait_never_match_timeout_bounds [7] 7 10 1 Nat.one_pos pollAllFail durZero
    (fun k v h => absurd h (by simp [pollAllFail]))
    (fun k h => absurd h (by simp [pollAllFail]))

/-! ### Per-cabinet serialization (claim C9) -/

/-- Unfolding: an acquire contributes its thread to the lock-event
sequence. -/
lemma lockSeq_cons_acq (i : Bool) (rest : List (Bool × OpStep)) :
    lockSeq ((i, OpStep.acqLock) :: rest) = i :: lockSeq rest := rfl

/-- Unfolding: a release contributes its thread to the lock-event
sequence. -/
lemma lockSeq_cons_rel (i : Bool) (rest : List (Bool × OpStep)) :
    lockSeq ((i, OpStep.relLock) :: rest) = i :: lockSeq rest := rfl

/-- Unfolding: an access contributes nothing to the lock-event sequence. -/
lemma lockSeq_cons_access (i : Bool) (a : Nat) (rest : List (Bool × OpStep)) :
    lockSeq ((i, OpStep.access a) :: rest) = lockSeq rest := rfl

/-- Unfolding: a thread projection keeps exactly its own steps. -/
lemma projThread_cons (i : Bool) (st : OpStep) (rest : List (Bool × OpStep)) (b : Bool) :
    projThread ((i, st) :: rest) b =
      if i == b then st :: projThread rest b else projThread rest b := by
  cases h : (i == b) <;> simp [projThread, List.filter_cons, h]

/-- Unfolding: lock-event counts over the three step kinds. -/
lemma lockCount_cons_acq (l : List OpStep) :
    lockCount (OpStep.acqLock :: l) = lockCount l + 1 := rfl

/-- Unfolding: a release is a lock event. -/
lemma lockCount_cons_rel (l : List OpStep) :
    lockCount (OpStep.relLock :: l) = lockCount l + 1 := rfl

/-- Unfolding: an access is not a lock event. -/
lemma lockCount_cons_access (a : Nat) (l : List OpStep) :
    lockCount (OpStep.access a :: l) = lockCount l := rfl

/-- Helper: the lock discipline forces the lock-event sequence to pair up
into acquire/release blocks by one thread at a time. -/
lemma lockOk_pairedFrom : ∀ (tr : List (Bool × OpStep)) (s : Option Bool),
    lockOk s tr = true → pairedFrom s (lockSeq tr) = true := by
  intro tr
  induction tr with
  | nil => intro s _; cases s <;> simp [lockSeq, pairedFrom]
  | cons p rest ih =>
    intro s h
    obtain ⟨i, st⟩ := p
    cases st with
    | acqLock =>
      cases s with
      | none =>
        rw [lockSeq_cons_acq]
        simp only [lockOk] at h
        simp only [pairedFrom]
        exact ih (some i) h
      | some h0 => simp [lockOk] at h
    | relLock =>
      cases s with
      | none => simp [lockOk] at h
      | some h0 =>
        simp only [lockOk, Bool.and_eq_true, beq_iff_eq] at h
        rw [lockSeq_cons_rel]
        simp only [pairedFrom, Bool.and_eq_true, beq_iff_eq]
        exact ⟨h.1, ih none h.2⟩
    | access a =>
      cases s with
      | none =>
        rw [lockSeq_cons_access]
        exact ih none (by simpa [lockOk] using h)
      | some h0 =>
        rw [lockSeq_cons_access]
        exact ih (some h0) (by simpa [lockOk] using h)

/-- Helper: the lock events of a trace are the lock events of its two
thread projections, counted together. -/
lemma lockSeq_length : ∀ tr : List (Bool × OpStep),
    (lockSeq tr).length = lockCount (projThread tr false) + lockCount (projThread tr true) := by
  intro tr
  induction tr with
  | nil => simp [lockSeq, projThread, lockCount]
  | cons p rest ih =>
    obtain ⟨i, st⟩ := p
    cases i <;> cases st <;>
      simp [lockSeq_cons_acq, lockSeq_cons_rel, lockSeq_cons_access,
        projThread_cons, lockCount_cons_acq, lockCount_cons_rel,
        lockCount_cons_access, ih] <;>
      omega

/-- Helper: one operation run holds exactly two lock events (its
`get_client` acquire and release). -/
lemma lockCount_opRun (a : List Nat) : lockCount (opRun a) = 2 := by
  have hm : ∀ l : List Nat, lockCount (l.map OpStep.access) = 0 := by
    intro l
    induction l with
    | nil => simp [lockCount]
    | cons x r ih => simpa [lockCount_cons_access] using ih
  simp [opRun, lockCount_cons_acq, lockCount_cons_rel, hm]

/-- Helper: a four-event paired lock sequence is serialized. -/
lemma pairedFrom_four_serialized :
    ∀ a b c d : Bool, pairedFrom none [a, b, c, d] = true →
      serializedTags [a, b, c, d] = true := by
  decide

/-- C9 (counterexample to the claim as stated): it is not the case that
every lock-valid interleaving of two operation runs against the same
cabinet serializes their register accesses.  `trInterleaved` is a
lock-valid trace of two runs whose accesses alternate: the per-cabinet
lock guards only client acquisition, so the second run's accesses begin
before the first run's end. -/
theorem same_cabinet_ops_can_interleave :
    ¬ (∀ (tr : List (Bool × OpStep)) (a0 a1 : List Nat),
        projThread tr false = opRun a0 → projThread tr true = opRun a1 →
        lockOk none tr = true → serializedTags (accSeq tr) = true) := by
  intro h
  exact absurd
    (h trInterleaved [0xBB8, 0xBB9] [0xBB8, 0xBB9] (by decide) (by decide) (by decide))
    (by decide)

/-- C9 (amended): what the source's per-cabinet lock does serialize is
client acquisition: in every lock-valid interleaving of two operation
runs against one cabinet, the two `get_client` critical sections do not
overlap (the lock-event sequence is serialized), while the register
accesses of the two runs can interleave (witnessed by `trInterleaved`). -/
theorem lock_serializes_acquisition_only :
    (∀ (tr : List (Bool × OpStep)) (a0 a1 : List Nat),
        projThread tr false = opRun a0 → projThread tr true = opRun a1 →
        lockOk none tr = true → serializedTags (lockSeq tr) = true) ∧
    (projThread trInterleaved false = opRun [0xBB8, 0xBB9] ∧
      projThread trInterleaved true = opRun [0xBB8, 0xBB9] ∧
      lockOk none trInterleaved = true ∧
      serializedTags (accSeq trInterleaved) = false) := by
  constructor
  · intro tr a0 a1 h0 h1 hl
    have hp := lockOk_pairedFrom tr none hl
    have hlen : (lockSeq tr).length = 4 := by
      rw [lockSeq_length, h0, h1, lockCount_opRun, lockCount_opRun]
    rcases hls : lockSeq tr with _ | ⟨a, _ | ⟨b, _ | ⟨c, _ | ⟨d, _ | e⟩⟩⟩⟩ <;>
      rw [hls] at hlen <;> simp at hlen
    rw [hls] at hp
    exact pairedFrom_four_serialized a b c d hp
  · exact ⟨by decide, by decide, by decide, by decide⟩

/-- Witness for the amended C9 at the concrete interleaved trace. -/
theorem lock_serializes_acquisition_only_witness :
    serializedTags (lockSeq trInterleaved) = true :=
  lock_serializes_acquisition_only.1 trInterleaved [0xBB8, 0xBB9] [0xBB8, 0xBB9]
    (by decide) (by decide) (by decide)

end DroneSpec
